import Mathlib

/-!
# Verification of the AERIS weather node server (udi-aeris-poly)

A shallow embedding, in Lean 4, of the data-aggregation and node-lifecycle
subsystem of the repository: the Polyglot-v3 controller `src/nodes/aeris.py`
(current-conditions extraction, forecast dispatch, forecast-entity discovery,
parameter clamping) and the legacy Polyglot-v2 controller `src/aeris.py`
(sub-day forecast aggregation, observation request URL, driver updates).

Conventions of the embedding:
 * JSON values decoded by `requests.get(...).json()` / `json.loads` are
   modelled by the inductive type `J` below; Python `d[key]` lookups that can
   raise `KeyError`/`TypeError` return `Option`.
 * Machine floats are modelled by `ℚ`; every concrete value appearing in a
   theorem below is exactly representable in binary floating point, and the
   arithmetic on those values (sums of small integers, division by 8,
   comparisons) is exact in IEEE double precision as well.
 * Externally visible behaviour (HTTP fetches, `setDriver` calls, per-day
   forecast dispatch) is recorded as a list of `Effect`s, in program order.
-/

set_option linter.unusedVariables false

namespace AerisPoly

/-- A decoded JSON value, as produced by `requests.Response.json()` /
`json.loads`.  `null` models Python `None`. -/
inductive J where
  | num (q : ℚ)
  | str (s : String)
  | obj (fields : List (String × J))
  | arr (elems : List J)
  | null

/-- First-match association-list lookup (Python `dict` keys are unique after
`json.loads`, so first-match and last-match agree on decoded payloads). -/
def lookupField : List (String × J) → String → Option J
  | [], _ => none
  | (k, v) :: t, key => if k = key then some v else lookupField t key

/-- `x[key]` on a JSON value: `some` on a dict that holds the key, `none`
when Python would raise (`KeyError` for a missing key, `TypeError` for a
string subscript on a non-dict). -/
def J.get? : J → String → Option J
  | .obj l, key => lookupField l key
  | _, _ => none

/-- `x[i]` with an integer index: `some` on a list that is long enough,
`none` where Python raises (`IndexError` / `TypeError`). -/
def J.at? : J → Nat → Option J
  | .arr l, i => l[i]?
  | _, _ => none

/-- Python substring containment `k in s` for strings. -/
def substrOccurs (s k : String) : Bool :=
  s.toList.tails.any (fun t => k.toList.isPrefixOf t)

/-- Accumulator loop for `pySplitColon`. -/
def splitOnCharAux (c : Char) : List Char → List Char → List String
  | [], acc => [String.mk acc.reverse]
  | x :: xs, acc =>
    if x = c then String.mk acc.reverse :: splitOnCharAux c xs []
    else splitOnCharAux c xs (x :: acc)

/-- Python `s.split(':')`: splitting on the single colon character; the
empty string yields `[""]`, and `k` separators yield `k + 1` segments. -/
def pySplitColon (s : String) : List String :=
  splitOnCharAux ':' s.toList []

/-- Python `key in x`: `some b` when the membership test evaluates to `b`,
`none` when it raises `TypeError` (membership on a number or `None`).
On a dict it tests keys, on a list it tests membership of the string among
the elements, on a string it is substring containment. -/
def J.hasKey : J → String → Option Bool
  | .obj l, key => some (l.any (fun p => p.1 = key))
  | .arr l, key => some (l.any (fun v => match v with | .str s => s = key | _ => false))
  | .str s, key => some (substrOccurs s key)
  | .num _, _ => none
  | .null, _ => none

/-- Python `float(v)` on a decoded JSON value, as used by `update_driver`
and the latitude capture: numbers coerce, everything else is modelled as a
coercion failure.  (Python `float` also parses plain numeric strings; the
AERIS API delivers JSON numbers for every numeric field, and none of the
payloads considered in the theorems below carries a numeric string, so
string parsing is not modelled.) -/
def pyFloat : J → Option ℚ
  | .num q => some q
  | _ => none

/-- The string carried by a JSON value, when it is one. -/
def J.asStr? : J → Option String
  | .str s => some s
  | _ => none

/-- One externally visible action of a poll operation, in program order. -/
inductive Effect where
  /-- `get_weather_data(kind)` / the legacy `http.request('GET', url)`:
  an HTTP fetch was issued (identified by endpoint kind or full URL). -/
  | fetch (endpoint : String)
  /-- `setDriver(driver, value)` reached the host: a driver slot was written. -/
  | setDriver (driver : String) (value : ℚ)
  /-- `self.nodes['forecast_<day>'].update_forecast(...)`: the period for
  `day` was dispatched to that forecast entity. -/
  | dispatch (day : ℤ)
deriving DecidableEq

/-- `update_driver(driver, value)` — the guarded `setDriver` wrapper
(`src/aeris.py` lines 119–124; the v3 controller's copy lives in the
`node_funcs` helper module, which is not under `src/`, and is modelled from
the spec: the sink silently skips, rather than raises on, a value that fails
numeric coercion).  It never raises: a coercible value produces one driver
write, anything else produces no effect. -/
def update_driver (driver : String) (v : J) : List Effect :=
  match pyFloat v with
  | some q => [.setDriver driver q]
  | none => []

/-- Does the effect list contain a write to driver `d`? -/
def writesDriver (es : List Effect) (d : String) : Bool :=
  es.any (fun e => match e with
    | .setDriver d' _ => d' = d
    | _ => false)

/-- The metric branch of `Controller.set_tags` (`src/nodes/aeris.py`
lines 160–188): logical field name → provider JSON key. -/
def metricTag (field : String) : String :=
  match field with
  | "temperature" => "tempC"
  | "humidity" => "humidity"
  | "pressure" => "pressureMB"
  | "windspeed" => "windSpeedKPH"
  | "gustspeed" => "windGustKPH"
  | "winddir" => "windDirDEG"
  | "visibility" => "visibilityKM"
  | "precipitation" => "precipMM"
  | "snow" => "snowDepthCM"
  | "snowf" => "snowCM"
  | "dewpoint" => "dewpointC"
  | "heatindex" => "heatindexC"
  | "windchill" => "windchillC"
  | "feelslike" => "feelslikeC"
  | "solarrad" => "solradWM2"
  | "sky" => "sky"
  | "temp_min" => "minTempC"
  | "temp_max" => "maxTempC"
  | "humidity_min" => "minHumidity"
  | "humidity_max" => "maxHumidity"
  | "wind_min" => "windSpeedMinKPH"
  | "wind_max" => "windSpeedMaxKPH"
  | "winddir_min" => "windDirMinDEG"
  | "winddir_max" => "windDirMaxDEG"
  | "uv" => "uvi"
  | "pop" => "pop"
  | "timestamp" => "timestamp"
  | "precip_summary" => "totalMM"
  | _ => ""

/-- The imperial (default) branch of `Controller.set_tags`
(`src/nodes/aeris.py` lines 189–217). -/
def imperialTag (field : String) : String :=
  match field with
  | "temperature" => "tempF"
  | "humidity" => "humidity"
  | "pressure" => "pressureIN"
  | "windspeed" => "windSpeedMPH"
  | "gustspeed" => "windGustMPH"
  | "winddir" => "windDirDEG"
  | "visibility" => "visibilityMI"
  | "precipitation" => "precipIN"
  | "snow" => "snowDepthIN"
  | "snowf" => "snowIN"
  | "dewpoint" => "dewpointF"
  | "heatindex" => "heatindexF"
  | "windchill" => "windchillF"
  | "feelslike" => "feelslikeF"
  | "solarrad" => "solradWM2"
  | "sky" => "sky"
  | "temp_min" => "minTempF"
  | "temp_max" => "maxTempF"
  | "humidity_min" => "minHumidity"
  | "humidity_max" => "maxHumidity"
  | "wind_min" => "windSpeedMinMPH"
  | "wind_max" => "windSpeedMaxMPH"
  | "winddir_min" => "windDirMinDEG"
  | "winddir_max" => "windDirMaxDEG"
  | "uv" => "uvi"
  | "pop" => "pop"
  | "timestamp" => "timestamp"
  | "precip_summary" => "totalIN"
  | _ => ""

/-- `self.tag[field]` after `set_tags(units)`: the `units == 'metric'` test
selects the metric table, anything else the imperial one. -/
def tag (units field : String) : String :=
  if units = "metric" then metricTag field else imperialTag field

/-- The ordered `(driver, logical field)` pairs of the fourteen tag-driven
`update_driver` calls of `Controller.query_conditions`
(`src/nodes/aeris.py` lines 259–272). -/
def condFields : List (String × String) :=
  [("CLITEMP", "temperature"), ("CLIHUM", "humidity"), ("BARPRES", "pressure"),
   ("SPEED", "windspeed"), ("GV5", "gustspeed"), ("WINDDIR", "winddir"),
   ("DISTANC", "visibility"), ("DEWPT", "dewpoint"), ("GV3", "heatindex"),
   ("GV4", "windchill"), ("GV2", "feelslike"), ("SOLRAD", "solarrad"),
   ("UV", "uv"), ("GV15", "snow")]

/-- `condFields` with the logical field names resolved through the active
tag map, in source order. -/
def resolvedFields (units : String) : List (String × String) :=
  condFields.map (fun p => (p.1, tag units p.2))

/-- The sequential `update_driver(driver, ob[key])` lines of a
`query_conditions` body, over `(driver, json key)` pairs.  `ob[key]` on a
missing key raises `KeyError`, which (the whole body sitting inside one
`try:` block) abandons every later line: the result records the effects
produced so far and whether the chain was aborted by such an exception. -/
def extractChain (ob : J) : List (String × String) → List Effect × Bool
  | [] => ([], false)
  | (d, k) :: rest =>
    match ob.get? k with
    | none => ([], true)
    | some v =>
      let r := extractChain ob rest
      (update_driver d v ++ r.1, r.2)

/-- Modelled from the spec: the coverage vocabulary table of the
weather-code module (`nodes/weather_codes.py`, imported as `wx` but not
present under `src/`).  Each segment is looked up in its own fixed table;
an unrecognized value maps to an "unknown" sentinel code (here 0) rather
than failing.  Representative entries only; no theorem below depends on a
particular code value. -/
def coverage_codes (s : String) : ℚ :=
  if s = "" then 1
  else if s = "PT" then 2
  else if s = "AR" then 3
  else if s = "SC" then 4
  else if s = "VC" then 5
  else 0

/-- Modelled from the spec: the intensity vocabulary table of
`nodes/weather_codes.py` (not under `src/`); unknown values map to a
sentinel. -/
def intensity_codes (s : String) : ℚ :=
  if s = "" then 1
  else if s = "VL" then 2
  else if s = "L" then 3
  else if s = "H" then 4
  else if s = "HVY" then 5
  else 0

/-- Modelled from the spec: the weather-condition vocabulary table of
`nodes/weather_codes.py` (not under `src/`); unknown values map to a
sentinel. -/
def weather_codes (s : String) : ℚ :=
  if s = "CL" then 1
  else if s = "FW" then 2
  else if s = "RA" then 3
  else if s = "SN" then 4
  else if s = "TS" then 5
  else 0

/-- The coded-weather block of `Controller.query_conditions`
(`src/nodes/aeris.py` lines 280–288): `ob['weatherCoded']` is looked up
(KeyError aborts), `.split(':')` is applied (AttributeError on a non-string
aborts), and the segments `[0]`, `[1]`, `[2]` drive the GV11/GV12/GV13
writes in turn; each out-of-range index raises `IndexError`, aborting there.
Returns the effects produced and whether the block raised. -/
def weatherCodedSteps (ob : J) : List Effect × Bool :=
  match ob.get? "weatherCoded" with
  | some (.str w) =>
    let segs := pySplitColon w
    let e1 := update_driver "GV11" (J.num (coverage_codes (segs.getD 0 "")))
    if 2 ≤ segs.length then
      let e2 := e1 ++ update_driver "GV12" (J.num (intensity_codes (segs.getD 1 "")))
      if 3 ≤ segs.length then
        (e2 ++ update_driver "GV13" (J.num (weather_codes (segs.getD 2 ""))), false)
      else (e2, true)
    else (e1, true)
  | some _ => ([], true)
  | none => ([], true)

/-- The latitude capture of `Controller.query_conditions`
(`src/nodes/aeris.py` lines 249–255): returns the new latitude (if set)
and whether the step raised (a raise happens when `['loc']` or `['lat']`
subscripting fails after a successful membership test, or when
`float(...)` fails on the lat value). -/
def locStep (resp : J) : Option ℚ × Bool :=
  match resp.hasKey "loc" with
  | none => (none, true)
  | some false => (none, false)
  | some true =>
    match resp.get? "loc" with
    | none => (none, true)
    | some loc =>
      match loc.hasKey "lat" with
      | none => (none, true)
      | some false => (none, false)
      | some true =>
        match loc.get? "lat" with
        | none => (none, true)
        | some v =>
          match pyFloat v with
          | some q => (some q, false)
          | none => (none, true)

/-- Outcome of the envelope checks of `query_conditions`
(`src/nodes/aeris.py` lines 241–247): `ret` models the explicit `return`
statements (which leave the whole method, skipping the sibling summary
query), `exn` models a raised `TypeError` (caught by the enclosing
`except`, after which the summary query still runs), `ok` carries
`jdata['response']`. -/
inductive EnvRes where
  | ret
  | exn
  | ok (resp : J)

/-- The `'response' not in jdata` / `'ob' not in jdata['response']`
envelope checks of `Controller.query_conditions`. -/
def envelope (jdata : J) : EnvRes :=
  match jdata.hasKey "response" with
  | none => .exn
  | some false => .ret
  | some true =>
    match jdata.get? "response" with
    | none => .exn
    | some resp =>
      match resp.hasKey "ob" with
      | none => .exn
      | some false => .ret
      | some true => .ok resp

/-- Outcome of the first (primary observation) `try:` block of
`Controller.query_conditions`: either an early `return` (which skips the
summary query entirely) or completion — normal or via the caught
exception — carrying the effects produced, the captured latitude, and the
`precipitation` local (initialized to `0` at line 227, possibly overwritten
at line 295). -/
inductive PrimaryOut where
  | earlyReturn (effects : List Effect) (lat : Option ℚ)
  | done (effects : List Effect) (lat : Option ℚ) (precip : J)

/-- The primary observation block of `Controller.query_conditions`
(`src/nodes/aeris.py` lines 229–307), parametrized by the decoded payload
the observations fetch would return (`none` models a failed fetch /
non-JSON body, for which `get_weather_data` returns `None`). -/
def primaryBlock (units : String) (obsResp : Option J) : PrimaryOut :=
  let f : List Effect := [.fetch "observations"]
  match obsResp with
  | none => .earlyReturn f none
  | some jdata =>
    match envelope jdata with
    | .ret => .earlyReturn f none
    | .exn => .done f none (J.num 0)
    | .ok resp =>
      let ls := locStep resp
      if ls.2 then .done f ls.1 (J.num 0)
      else
        match resp.get? "ob" with
        | none => .done f ls.1 (J.num 0)
        | some ob =>
          let c := extractChain ob (resolvedFields units)
          if c.2 then .done (f ++ c.1) ls.1 (J.num 0)
          else
            let w := weatherCodedSteps ob
            if w.2 then .done (f ++ c.1 ++ w.1) ls.1 (J.num 0)
            else
              match ob.get? "sky" with
              | none => .done (f ++ c.1 ++ w.1) ls.1 (J.num 0)
              | some sv =>
                let e3 := update_driver "GV14" sv
                match ob.get? (tag units "precipitation") with
                | none => .done (f ++ c.1 ++ w.1 ++ e3) ls.1 (J.num 0)
                | some pv => .done (f ++ c.1 ++ w.1 ++ e3) ls.1 pv

/-- `rd = jdata['response'][0]['periods'][0]['summary']` (list-shaped
response) or `jdata['response']['periods'][0]['summary']`
(`src/nodes/aeris.py` lines 319–322); `none` when any subscript raises. -/
def summaryRecord (resp : J) : Option J :=
  match resp with
  | .arr l => ((((J.arr l).at? 0).bind (·.get? "periods")).bind (·.at? 0)).bind (·.get? "summary")
  | r => ((r.get? "periods").bind (·.at? 0)).bind (·.get? "summary")

/-- The second (precipitation summary) `try:` block of
`Controller.query_conditions` (`src/nodes/aeris.py` lines 309–329), after
its fetch: a `None` payload or an absent `response` key exits by `return`
(producing nothing — in particular no GV6 write); any raise inside the
block lands in the `except` handler, which writes GV6 from the
`precipitation` local; a well-formed record lacking the `precip` key
produces nothing. -/
def summaryStep (units : String) (sumResp : Option J) (precip : J) : List Effect :=
  match sumResp with
  | none => []
  | some jdata =>
    match jdata.hasKey "response" with
    | none => update_driver "GV6" precip
    | some false => []
    | some true =>
      match jdata.get? "response" with
      | none => update_driver "GV6" precip
      | some resp =>
        match summaryRecord resp with
        | none => update_driver "GV6" precip
        | some rd =>
          match rd.hasKey "precip" with
          | none => update_driver "GV6" precip
          | some false => []
          | some true =>
            match rd.get? "precip" with
            | none => update_driver "GV6" precip
            | some pobj =>
              match pobj.get? (tag units "precip_summary") with
              | none => update_driver "GV6" precip
              | some v => update_driver "GV6" v

/-- `Controller.query_conditions` of the v3 controller
(`src/nodes/aeris.py` lines 219–329), parametrized by the payloads the two
fetches would return.  Result: the effect trace and the latitude captured
this cycle (`none` = `self.latitude` untouched). -/
def query_conditions (configured : Bool) (units : String)
    (obsResp sumResp : Option J) : List Effect × Option ℚ :=
  match configured with
  | false => ([], none)
  | true =>
    match primaryBlock units obsResp with
    | .earlyReturn es lat => (es, lat)
    | .done es lat precip =>
      (es ++ Effect.fetch "observations/summary" :: summaryStep units sumResp precip, lat)

/-- The dispatch loop of `Controller.query_forecast`
(`src/nodes/aeris.py` lines 344–353): starting at `day`, each remaining
period is dispatched to `self.nodes['forecast_<day>']` (a `KeyError` on a
day index absent from the node registry lands in the enclosing `except`,
abandoning the loop), then `day` is incremented and the loop returns as
soon as `day >= int(Forecast Days)`.  `reg` is the set of day indices whose
forecast node exists; the result is the list of dispatched day indices in
order. -/
def dispatchLoop (fdays : ℤ) (reg : Finset ℤ) : ℕ → ℤ → List ℤ
  | 0, _ => []
  | n + 1, day =>
    if day ∈ reg then
      day :: (if fdays ≤ day + 1 then [] else dispatchLoop fdays reg n (day + 1))
    else []

/-- `Controller.query_forecast` of the v3 controller (`src/nodes/aeris.py`
lines 332–356).  `nperiods` is the length of
`jdata['response'][0]['periods']` of the decoded forecast payload; `none`
collapses the no-data and malformed-envelope cases (a `None` payload exits
by `return`, envelope subscript errors land in the `except` handler —
either way the fetch is the only effect).  A period with malformed content
would likewise abandon the loop early; the loop is modelled for well-formed
periods, which maximizes the dispatches performed. -/
def query_forecastV3 (configured : Bool) (fdays : ℤ) (reg : Finset ℤ)
    (nperiods : Option ℕ) : List Effect :=
  match configured with
  | false => []
  | true =>
    match nperiods with
    | none => [.fetch "forecasts"]
    | some n => Effect.fetch "forecasts" :: (dispatchLoop fdays reg n 0).map .dispatch

/-- Python `range(a, b)` over integers (step 1). -/
def pyRange (a b : ℤ) : List ℤ :=
  (List.range (b - a).toNat).map (fun i : ℕ => a + (i : ℤ))

/-- The `Forecast Days` update of `Controller.check_params`
(`src/nodes/aeris.py` lines 401–403), on the configured path: a value
greater than 6 is overwritten with 6; nothing else is changed (in
particular there is no lower clamp). -/
def clampForecastDays (d : ℤ) : ℤ :=
  if d > 6 then 6 else d

/-- The deletion loop of `Controller.discover` (`src/nodes/aeris.py`
lines 367–375): when `num_days < 7`, `delNode('forecast_<day>')` is
attempted for every `day in range(num_days, 7)`, each attempt inside its
own `try:` so a failure (typically: no such node) only logs and the loop
continues. -/
def discoverDeleteAttempts (numDays : ℤ) : List ℤ :=
  if numDays < 7 then pyRange numDays 7 else []

/-- The creation loop of `Controller.discover` (`src/nodes/aeris.py`
lines 377–384): `addNode` is attempted for every `day in
range(0, num_days)`, each attempt inside its own `try:` (best-effort). -/
def discoverCreateAttempts (numDays : ℤ) : List ℤ :=
  pyRange 0 numDays

/-- The entities actually deleted by one `discover` pass over a registry
`E` of existing day indices: a `delNode` attempt succeeds exactly on the
indices that exist. -/
def discoverDeleted (numDays : ℤ) (E : Finset ℤ) : Finset ℤ :=
  E.filter (fun i => i ∈ discoverDeleteAttempts numDays)

/-- The entities newly created by one `discover` pass: `addNode` on an
address that survived the deletion loop re-registers the existing node,
so the genuinely new entities are the attempted indices not already
present. -/
def discoverNewlyCreated (numDays : ℤ) (E : Finset ℤ) : Finset ℤ :=
  (discoverCreateAttempts numDays).toFinset \ (E \ (discoverDeleteAttempts numDays).toFinset)

/-- Python `re.fullmatch(r'\d\d\d\d\d', s)` as a Boolean. -/
def isZip5 (s : String) : Bool :=
  s.length = 5 && s.toList.all Char.isDigit

/-- Python `re.fullmatch(r'\d\d\d\d\d,..', s)` as a Boolean (`.` does not
match a newline). -/
def isZip5Comma2 (s : String) : Bool :=
  match s.toList with
  | [a, b, c, d, e, f, g, h] =>
    a.isDigit && b.isDigit && c.isDigit && d.isDigit && e.isDigit &&
      (f = ',') && (g ≠ '\n') && (h ≠ '\n')
  | _ => false

/-- The observations request URL built by the legacy
`Controller.query_conditions` (`src/aeris.py` lines 133–144): the location
(appended identically in all three regex branches) followed by the literal
`client_id` and `client_secret` query parameters.  `apikey` is the
configured `APIkey` parameter, taken as an argument to state that the URL
does not depend on it. -/
def legacyObsURL (location apikey : String) : String :=
  let base := "http://api.aerisapi.com/observations/"
  let withLoc :=
    if isZip5Comma2 location then base ++ location
    else if isZip5 location then base ++ location
    else base ++ location
  (withLoc ++ "?client_id=JGlB9OD1KA1EvzoSkpBmJ") ++
    "&client_secret=xiZGRDGO61ZP2YZH1YDwVB6tuDMX4Zx3o9yeXDyI"

/-- The ordered `(driver, json key)` pairs of the seven `update_driver`
calls of the legacy `Controller.query_conditions` (`src/aeris.py`
lines 221–227); the keys are hardcoded metric ones. -/
def legacyCondFields : List (String × String) :=
  [("CLITEMP", "tempC"), ("CLIHUM", "humidity"), ("BARPRES", "pressureMB"),
   ("GV4", "windSpeedKPH"), ("WINDDIR", "windDirDEG"),
   ("GV15", "visibilityKM"), ("GV6", "precipMM")]

/-- The legacy `Controller.query_conditions` (`src/aeris.py`
lines 126–256).  The request URL is built first, then the `configured`
gate returns before any fetch; the rest of the method has no enclosing
`try:`, so a raise propagates out of the method — the Boolean records
whether that happened (the effects up to that point having been emitted).
`resp` is the decoded payload of the fetch. -/
def legacy_query_conditions (configured : Bool) (location apikey : String)
    (resp : Option J) : List Effect × Bool :=
  match configured with
  | false => ([], false)
  | true =>
    let f : List Effect := [.fetch (legacyObsURL location apikey)]
    match resp with
    | none => (f, false)
    | some jdata =>
      match jdata.hasKey "response" with
      | none => (f, true)
      | some false => (f, false)
      | some true =>
        match jdata.get? "response" with
        | none => (f, true)
        | some r =>
          match r.hasKey "ob" with
          | none => (f, true)
          | some false => (f, false)
          | some true =>
            match r.get? "ob" with
            | none => (f, true)
            | some ob =>
              let c := extractChain ob legacyCondFields
              (f ++ c.1, c.2)

/-! ## The legacy sub-day forecast aggregation

`Controller.query_forecast` of `src/aeris.py` (lines 258–381) folds
three-hourly buckets into daily summaries.  A bucket is one element of
`jdata['list']`; the fields below are the ones the loop reads
(`forecast['main']['temp_max']`, … , `forecast['dt_txt']` split into date
and time-of-day).  All numeric fields are taken through `float(...)`;
payloads are assumed well-formed (the method has no exception handler, so
a malformed bucket would abort the whole poll). -/

/-- One three-hourly forecast bucket, carrying the fields the aggregation
loop reads. -/
structure Bucket where
  /-- `forecast['dt_txt'].split(' ')[1]`, the time-of-day marker. -/
  time : String
  temp_max : ℚ
  temp_min : ℚ
  humidity : ℚ
  pressure : ℚ
  weatherId : ℚ
  speed : ℚ
  clouds : ℚ
  dtStamp : ℤ
deriving DecidableEq

/-- The `self.fcast` dictionary of the legacy controller: the running /
final daily summary. -/
structure Fcast where
  temp_max : ℚ
  temp_min : ℚ
  hmax : ℚ
  hmin : ℚ
  pressure : ℚ
  weather : ℚ
  speed : ℚ
  clouds : ℚ
  uv : ℚ
  dtStamp : ℤ
deriving DecidableEq

/-- The loop state of the legacy `query_forecast`: the running summary,
the `day` counter (starting at 1), the `start` flag, the bucket `count`,
and the dispatches performed so far (day index paired with the summary
handed to `update_forecast`). -/
structure QFState where
  fcast : Fcast
  day : ℕ
  start : Bool
  count : ℕ
  dispatches : List (ℕ × Fcast)
deriving DecidableEq

/-- The `dt[1] == '00:00:00'` initialization (`src/aeris.py`
lines 325–341): every summary field is seeded from the current bucket;
`uv` comes from `uv_data[day - 1]['value']` with a `try/except` fallback
to 0 (modelled by a list of UV values, out-of-range reads giving 0). -/
def seedFcast (uv : List ℚ) (day : ℕ) (b : Bucket) : Fcast :=
  { temp_max := b.temp_max, temp_min := b.temp_min,
    hmax := b.humidity, hmin := b.humidity,
    pressure := b.pressure, weather := b.weatherId,
    speed := b.speed, clouds := b.clouds,
    uv := (uv[day - 1]?).getD 0, dtStamp := b.dtStamp }

/-- The `elif start:` accumulation (`src/aeris.py` lines 342–357):
strict `>` / `<` updates for the temperature and humidity extrema, running
sums for pressure, wind speed and cloud cover. -/
def accumFcast (f : Fcast) (b : Bucket) : Fcast :=
  { f with
    temp_max := if b.temp_max > f.temp_max then b.temp_max else f.temp_max,
    temp_min := if b.temp_min < f.temp_min then b.temp_min else f.temp_min,
    hmax := if b.humidity > f.hmax then b.humidity else f.hmax,
    hmin := if b.humidity < f.hmin then b.humidity else f.hmin,
    pressure := f.pressure + b.pressure,
    speed := f.speed + b.speed,
    clouds := f.clouds + b.clouds }

/-- The day-close at the `'21:00:00'` marker (`src/aeris.py`
lines 361–371): the averaged fields are divided by the **fixed constant
8**, the summary is dispatched to `forecast_<day>`, `day` is incremented
and the accumulator is reset. -/
def closeDay8 (s : QFState) : QFState :=
  let fc := { s.fcast with
    pressure := s.fcast.pressure / 8,
    speed := s.fcast.speed / 8,
    clouds := s.fcast.clouds / 8 }
  { fcast := fc, day := s.day + 1, start := false, count := 0,
    dispatches := s.dispatches ++ [(s.day, fc)] }

/-- One iteration of the legacy aggregation loop (`src/aeris.py`
lines 313–371) on one bucket: seed at the `'00:00:00'` marker, accumulate
while `start` is set, and close the day after (and including) a
`'21:00:00'` bucket. -/
def stepBucket (uv : List ℚ) (s : QFState) (b : Bucket) : QFState :=
  let s1 :=
    if b.time = "00:00:00" then
      { s with fcast := seedFcast uv s.day b, start := true, count := 1 }
    else if s.start then
      { s with fcast := accumFcast s.fcast b, count := s.count + 1 }
    else s
  if b.time = "21:00:00" ∧ s1.start then closeDay8 s1 else s1

/-- The partial-day close after the loop (`src/aeris.py` lines 373–381):
a day still open when the input ends is closed with the averaged fields
divided by the bucket `count` actually accumulated, then dispatched.
(The source never reaches this division with `count = 0`: `start` is only
set together with `count = 1`.) -/
def closePartial (s : QFState) : QFState :=
  if s.start then
    let fc := { s.fcast with
      pressure := s.fcast.pressure / (s.count : ℚ),
      speed := s.fcast.speed / (s.count : ℚ),
      clouds := s.fcast.clouds / (s.count : ℚ) }
    { s with fcast := fc, dispatches := s.dispatches ++ [(s.day, fc)] }
  else s

/-- The fresh loop state at entry of the legacy `query_forecast`:
`day = 1`, `start = False`, `count = 0`, and whatever `self.fcast` held
from the previous cycle. -/
def initQF (f0 : Fcast) : QFState :=
  { fcast := f0, day := 1, start := false, count := 0, dispatches := [] }

/-- The whole legacy aggregation pass (`src/aeris.py` lines 309–381):
fold the buckets of `jdata['list']` and close a still-open partial day. -/
def runQueryForecast (uv : List ℚ) (f0 : Fcast) (buckets : List Bucket) : QFState :=
  closePartial (buckets.foldl (stepBucket uv) (initQF f0))

/-! ## Concrete payloads used in the theorems below -/

/-- A complete imperial-units observation object: every key read by
`query_conditions` is present and numeric, with a three-segment coded
weather string. -/
def obFull : J := J.obj
  [("tempF", .num 70), ("humidity", .num 40), ("pressureIN", .num 30),
   ("windSpeedMPH", .num 5), ("windGustMPH", .num 10), ("windDirDEG", .num 180),
   ("visibilityMI", .num 10), ("dewpointF", .num 60), ("heatindexF", .num 80),
   ("windchillF", .num 65), ("feelslikeF", .num 71), ("solradWM2", .num 500),
   ("uvi", .num 3), ("snowDepthIN", .num 0),
   ("weatherCoded", .str "PT:HVY:RA"), ("sky", .num 25), ("precipIN", .num 5)]

/-- `obFull` with the `dewpointF` key removed (and nothing else changed). -/
def obNoDew : J := J.obj
  [("tempF", .num 70), ("humidity", .num 40), ("pressureIN", .num 30),
   ("windSpeedMPH", .num 5), ("windGustMPH", .num 10), ("windDirDEG", .num 180),
   ("visibilityMI", .num 10), ("heatindexF", .num 80),
   ("windchillF", .num 65), ("feelslikeF", .num 71), ("solradWM2", .num 500),
   ("uvi", .num 3), ("snowDepthIN", .num 0),
   ("weatherCoded", .str "PT:HVY:RA"), ("sky", .num 25), ("precipIN", .num 5)]

/-- `obFull` with a two-segment coded weather string (and nothing else
changed). -/
def obTwoSeg : J := J.obj
  [("tempF", .num 70), ("humidity", .num 40), ("pressureIN", .num 30),
   ("windSpeedMPH", .num 5), ("windGustMPH", .num 10), ("windDirDEG", .num 180),
   ("visibilityMI", .num 10), ("dewpointF", .num 60), ("heatindexF", .num 80),
   ("windchillF", .num 65), ("feelslikeF", .num 71), ("solradWM2", .num 500),
   ("uvi", .num 3), ("snowDepthIN", .num 0),
   ("weatherCoded", .str "PT:HVY"), ("sky", .num 25), ("precipIN", .num 5)]

/-- `obFull` with a one-segment coded weather string — no colon at all —
(and nothing else changed). -/
def obOneSeg : J := J.obj
  [("tempF", .num 70), ("humidity", .num 40), ("pressureIN", .num 30),
   ("windSpeedMPH", .num 5), ("windGustMPH", .num 10), ("windDirDEG", .num 180),
   ("visibilityMI", .num 10), ("dewpointF", .num 60), ("heatindexF", .num 80),
   ("windchillF", .num 65), ("feelslikeF", .num 71), ("solradWM2", .num 500),
   ("uvi", .num 3), ("snowDepthIN", .num 0),
   ("weatherCoded", .str "RA"), ("sky", .num 25), ("precipIN", .num 5)]

/-- `{"response": {"ob": ob}}` — the observations payload around an
observation object (no `loc` member, so the latitude capture only logs). -/
def obsPayload (ob : J) : J := J.obj [("response", J.obj [("ob", ob)])]

/-- A well-formed precipitation-summary payload whose `totalIN` value
is 2. -/
def sumOkIN : J := J.obj
  [("response", J.obj
    [("periods", J.arr
      [J.obj [("summary", J.obj
        [("precip", J.obj [("totalIN", J.num 2)])])]])])]

/-- A summary payload whose `response` member is a bare number: the
`['periods']` subscript raises, landing in the fallback handler. -/
def sumBad : J := J.obj [("response", J.num 1)]

/-- A well-formed summary payload whose record lacks the `precip` key. -/
def sumNoPrecip : J := J.obj
  [("response", J.obj
    [("periods", J.arr [J.obj [("summary", J.obj [("temp", J.num 1)])]])])]

/-- A forecast bucket with the given time-of-day marker and pressure, all
other numeric fields 0. -/
def bP (t : String) (p : ℚ) : Bucket :=
  { time := t, temp_max := 0, temp_min := 0, humidity := 0, pressure := p,
    weatherId := 0, speed := 0, clouds := 0, dtStamp := 0 }

/-- A forecast bucket with the given time-of-day marker, temperature
(`temp_max = temp_min = t`) and humidity, all other numeric fields 0. -/
def bT (tod : String) (t h : ℚ) : Bucket :=
  { time := tod, temp_max := t, temp_min := t, humidity := h, pressure := 0,
    weatherId := 0, speed := 0, clouds := 0, dtStamp := 0 }

/-- An all-zero daily summary, standing for whatever `self.fcast` held
before the poll. -/
def fZero : Fcast :=
  { temp_max := 0, temp_min := 0, hmax := 0, hmin := 0, pressure := 0,
    weather := 0, speed := 0, clouds := 0, uv := 0, dtStamp := 0 }

/-- The effect trace of the v3 `query_conditions` poll on the payload
missing `dewpointF`, with a well-formed precipitation summary. -/
def effNoDew : List Effect :=
  (query_conditions true "imperial" (some (obsPayload obNoDew)) (some sumOkIN)).1

/-- The effect trace of the v3 `query_conditions` poll on the payload
whose coded-weather string has two segments, with a well-formed
precipitation summary. -/
def effTwoSeg : List Effect :=
  (query_conditions true "imperial" (some (obsPayload obTwoSeg)) (some sumOkIN)).1

/-- The effect trace of the v3 `query_conditions` poll on the payload
whose coded-weather string has a single segment (no colon), with a
well-formed precipitation summary. -/
def effOneSeg : List Effect :=
  (query_conditions true "imperial" (some (obsPayload obOneSeg)) (some sumOkIN)).1

/-- The daily summary produced for a day seeded by `b0` at the
`'00:00:00'` marker, accumulated over `bs`, and closed by the partial-day
path (input ends before a `'21:00:00'` bucket): averaged fields are
divided by the bucket count actually accumulated, `1 + bs.length`. -/
def partialDaySummary (uv : List ℚ) (b0 : Bucket) (bs : List Bucket) : Fcast :=
  { temp_max := (bs.map Bucket.temp_max).foldl max b0.temp_max,
    temp_min := (bs.map Bucket.temp_min).foldl min b0.temp_min,
    hmax := (bs.map Bucket.humidity).foldl max b0.humidity,
    hmin := (bs.map Bucket.humidity).foldl min b0.humidity,
    pressure := (b0.pressure + (bs.map Bucket.pressure).sum) / ((1 + bs.length : ℕ) : ℚ),
    weather := b0.weatherId,
    speed := (b0.speed + (bs.map Bucket.speed).sum) / ((1 + bs.length : ℕ) : ℚ),
    clouds := (b0.clouds + (bs.map Bucket.clouds).sum) / ((1 + bs.length : ℕ) : ℚ),
    uv := uv[0]?.getD 0,
    dtStamp := b0.dtStamp }

/-- The daily summary produced for a day seeded by `b0`, accumulated over
`bs` and then over the closing `'21:00:00'` bucket `bend`: averaged fields
are divided by the fixed constant 8, whatever the actual bucket count. -/
def markerDaySummary (uv : List ℚ) (b0 : Bucket) (bs : List Bucket) (bend : Bucket) : Fcast :=
  { temp_max := ((bs ++ [bend]).map Bucket.temp_max).foldl max b0.temp_max,
    temp_min := ((bs ++ [bend]).map Bucket.temp_min).foldl min b0.temp_min,
    hmax := ((bs ++ [bend]).map Bucket.humidity).foldl max b0.humidity,
    hmin := ((bs ++ [bend]).map Bucket.humidity).foldl min b0.humidity,
    pressure := (b0.pressure + ((bs ++ [bend]).map Bucket.pressure).sum) / 8,
    weather := b0.weatherId,
    speed := (b0.speed + ((bs ++ [bend]).map Bucket.speed).sum) / 8,
    clouds := (b0.clouds + ((bs ++ [bend]).map Bucket.clouds).sum) / 8,
    uv := uv[0]?.getD 0,
    dtStamp := b0.dtStamp }

/-! ## Helper lemmas -/

theorem mem_pyRange {a b i : ℤ} : i ∈ pyRange a b ↔ a ≤ i ∧ i < b := by
  unfold pyRange
  rw [List.mem_map]
  constructor
  · rintro ⟨k, hk, rfl⟩
    rw [List.mem_range] at hk
    omega
  · rintro ⟨h1, h2⟩
    refine ⟨(i - a).toNat, ?_, ?_⟩
    · rw [List.mem_range]
      omega
    · omega

theorem dispatchLoop_index_bound (fdays : ℤ) (reg : Finset ℤ) :
    ∀ (n : ℕ) (day i : ℤ), i ∈ dispatchLoop fdays reg n day → i = day ∨ i < fdays := by
  intro n
  induction n with
  | zero => intro day i h; simp [dispatchLoop] at h
  | succ m ih =>
    intro day i h
    simp only [dispatchLoop] at h
    by_cases hreg : day ∈ reg
    · rw [if_pos hreg] at h
      rcases List.mem_cons.mp h with h1 | h2
      · exact Or.inl h1
      · by_cases hstop : fdays ≤ day + 1
        · rw [if_pos hstop] at h2; simp at h2
        · rw [if_neg hstop] at h2
          rcases ih (day + 1) i h2 with h3 | h3
          · exact Or.inr (by omega)
          · exact Or.inr h3
    · rw [if_neg hreg] at h; simp at h

/-! ## Claim theorems -/

/-- **C5.** Every poll operation invoked while `configured` is false
returns immediately: no HTTP fetch is issued, no driver is written, no
forecast entity receives a dispatch, and the cached latitude is untouched.
This holds for the v3 `query_conditions` and `query_forecast` and for the
legacy `query_conditions` (which assembles its request string before the
gate but performs no fetch). -/
theorem C5_unconfigured_polls_do_nothing :
    ∀ (units : String) (obsResp sumResp : Option J) (fdays : ℤ) (reg : Finset ℤ)
      (np : Option ℕ) (loc key : String) (resp2 : Option J),
      query_conditions false units obsResp sumResp = ([], none) ∧
      query_forecastV3 false fdays reg np = [] ∧
      legacy_query_conditions false loc key resp2 = ([], false) := by
  intro units obsResp sumResp fdays reg np loc key resp2
  exact ⟨rfl, rfl, rfl⟩

/-- **C10.** The observations request URL built by the legacy
`query_conditions` embeds the same fixed literal `client_id` and
`client_secret` strings regardless of the configured `APIkey` parameter:
two runs differing only in the apikey build byte-identical URLs, and the
URL is exactly the base, the location, and the two hardcoded credential
parameters. -/
theorem C10_legacy_url_ignores_apikey :
    ∀ loc k1 k2 : String,
      legacyObsURL loc k1 = legacyObsURL loc k2 ∧
      legacyObsURL loc k1 =
        (("http://api.aerisapi.com/observations/" ++ loc ++
          "?client_id=JGlB9OD1KA1EvzoSkpBmJ") ++
          "&client_secret=xiZGRDGO61ZP2YZH1YDwVB6tuDMX4Zx3o9yeXDyI") := by
  intro loc k1 k2
  unfold legacyObsURL
  constructor
  · rfl
  · split_ifs <;> simp [String.append_assoc]

/-- **C3, counterexample.** Reconciliation itself (`discover`) applies no
clamp: run with `Forecast Days = 9` and no existing entities — as happens
when a parameter update triggers `discover` without passing through
`check_params` — it creates `forecast_0` … `forecast_8`, not exactly
`forecast_0` … `forecast_5` as the claim states. -/
theorem C3_counterexample :
    discoverNewlyCreated 9 ∅ = ({0, 1, 2, 3, 4, 5, 6, 7, 8} : Finset ℤ) ∧
    discoverNewlyCreated 9 ∅ ≠ ({0, 1, 2, 3, 4, 5} : Finset ℤ) := by
  decide

/-- **C3, amended.** The horizon clamp lives in `check_params`, not in
`discover`: a configured value above 6 is overwritten with 6 there (with no
lower clamp), so reconciliation reached through `start()` —
`check_params` followed by `discover` — with `Forecast Days = 9` and no
existing entities creates exactly `forecast_0` … `forecast_5`; `discover`
invoked directly (the parameter-update path) uses the raw value, creating
`forecast_0` … `forecast_8` for 9.  A non-positive horizon creates
nothing. -/
theorem C3_clamp_lives_in_check_params :
    clampForecastDays 9 = 6 ∧
    discoverNewlyCreated (clampForecastDays 9) ∅ = ({0, 1, 2, 3, 4, 5} : Finset ℤ) ∧
    (∀ d : ℤ, clampForecastDays d ≤ 6 ∨ clampForecastDays d = d) ∧
    (∀ d : ℤ, d ≤ 6 → clampForecastDays d = d) ∧
    (∀ d : ℤ, d ≤ 0 → discoverNewlyCreated d ∅ = ∅) ∧
    discoverNewlyCreated 9 ∅ = ({0, 1, 2, 3, 4, 5, 6, 7, 8} : Finset ℤ) := by
  refine ⟨by decide, by decide, ?_, ?_, ?_, by decide⟩
  · intro d
    unfold clampForecastDays
    split_ifs with h
    · exact Or.inl le_rfl
    · exact Or.inr rfl
  · intro d hd
    unfold clampForecastDays
    rw [if_neg (by omega)]
  · intro d hd
    have h0 : discoverCreateAttempts d = [] := by
      have ht : (d - 0).toNat = 0 := by omega
      simp only [discoverCreateAttempts, pyRange, ht, List.range_zero, List.map_nil]
    simp [discoverNewlyCreated, h0]

/-- **C3, witness.** The clamp applied at the boundary value 6 (left
unchanged) and at a non-positive horizon (nothing created). -/
theorem C3_witness :
    ((6 : ℤ) ≤ 6 ∧ clampForecastDays 6 = 6) ∧
    ((-1 : ℤ) ≤ 0 ∧ discoverNewlyCreated (-1) ∅ = ∅) :=
  ⟨⟨le_refl 6, C3_clamp_lives_in_check_params.2.2.2.1 6 (le_refl 6)⟩,
   ⟨by norm_num, C3_clamp_lives_in_check_params.2.2.2.2.1 (-1) (by norm_num)⟩⟩

/-- **C6, counterexample.** The deletion loop covers only
`range(num_days, 7)`: an existing entity with index 7 — reachable after an
unclamped reconciliation — lies outside the valid range `[0, 3)` yet is
not deleted by `discover` with horizon 3, contradicting "deletes exactly
the existing entities whose day index lies outside `[0, h)`". -/
theorem C6_counterexample :
    (7 : ℤ) ∈ ({0, 1, 2, 3, 4, 7} : Finset ℤ) ∧
    (7 : ℤ) ∉ Finset.Ico (0 : ℤ) 3 ∧
    discoverDeleted 3 {0, 1, 2, 3, 4, 7} = {3, 4} ∧
    (7 : ℤ) ∉ discoverDeleted 3 {0, 1, 2, 3, 4, 7} := by
  decide

/-- **C6, amended.** For every horizon `h` and every set `E` of existing
forecast-day entities, one `discover` pass deletes exactly the existing
entities whose index lies in `[h, 7)` (an index ≥ 7 is never touched) and
creates exactly the indices in `[0, h)` that lack an entity; each
individual `delNode`/`addNode` sits in its own `try:`, so per-index
failures are logged and the remaining indices still processed.  Horizon 3
with existing `{0,1,2,3,4}` deletes `{3,4}` and creates nothing. -/
theorem C6_reconciliation_delete_create_sets :
    (∀ (h : ℤ) (E : Finset ℤ),
        discoverDeleted h E = E ∩ Finset.Ico h 7 ∧
        discoverNewlyCreated h E = Finset.Ico 0 h \ E) ∧
    discoverDeleted 3 {0, 1, 2, 3, 4} = {3, 4} ∧
    discoverNewlyCreated 3 {0, 1, 2, 3, 4} = ∅ := by
  refine ⟨?_, by decide, by decide⟩
  intro h E
  constructor
  · ext i
    by_cases hE : i ∈ E <;>
      by_cases hh : h < 7 <;>
        simp [discoverDeleted, discoverDeleteAttempts, mem_pyRange, hE, hh,
          Finset.mem_Ico] <;> omega
  · ext i
    by_cases hE : i ∈ E <;>
      by_cases hh : h < 7 <;>
        simp [discoverNewlyCreated, discoverCreateAttempts, discoverDeleteAttempts,
          mem_pyRange, hE, hh, Finset.mem_Ico] <;> omega

/-- **C7, counterexample.** The horizon test runs only after a dispatch,
so with `Forecast Days = 0` (the parameter's default) and the entity
`forecast_0` present, the first period of a one-period response is
dispatched to it even though its day index 0 is not below the horizon 0 —
contradicting "never dispatches a forecast period whose day index is
greater than or equal to the configured horizon". -/
theorem C7_counterexample :
    query_forecastV3 true 0 {0} (some 1) =
      [Effect.fetch "forecasts", Effect.dispatch 0] ∧
    ¬ ((0 : ℤ) < 0) := by
  decide

/-- **C7, amended.** For every horizon of at least 1, the dispatch loop of
`query_forecast` never dispatches a period whose day index reaches the
horizon: the check after each dispatch stops the loop, and every surplus
period is discarded undispatched.  With a horizon ≤ 0, however, the first
period is still dispatched (to `forecast_0`, when it exists) before the
check fires, because the test follows the dispatch. -/
theorem C7_dispatch_respects_positive_horizon :
    (∀ (fdays : ℤ) (reg : Finset ℤ) (n : ℕ) (i : ℤ), 1 ≤ fdays →
        Effect.dispatch i ∈ query_forecastV3 true fdays reg (some n) → i < fdays) ∧
    (∀ (fdays : ℤ) (reg : Finset ℤ) (n : ℕ), fdays ≤ 0 → 0 ∈ reg →
        Effect.dispatch 0 ∈ query_forecastV3 true fdays reg (some (n + 1))) := by
  constructor
  · intro fdays reg n i hf hmem
    simp only [query_forecastV3, List.mem_cons, List.mem_map] at hmem
    rcases hmem with h | ⟨j, hj, hji⟩
    · exact absurd h (by simp)
    · cases hji
      rcases dispatchLoop_index_bound fdays reg n 0 i hj with h0 | h0
      · omega
      · exact h0
  · intro fdays reg n hf h0
    simp only [query_forecastV3, dispatchLoop, if_pos h0, if_pos (by omega : fdays ≤ 0 + 1)]
    simp

/-- **C7, witness.** A concrete positive-horizon run: horizon 3 over five
periods dispatches day 2 (membership checked by evaluation), and the
theorem bounds it below 3; plus the concrete horizon-0 dispatch. -/
theorem C7_witness :
    ((1 : ℤ) ≤ 3 ∧ (2 : ℤ) < 3) ∧
    ((0 : ℤ) ≤ 0 ∧ Effect.dispatch 0 ∈ query_forecastV3 true 0 {0} (some (0 + 1))) :=
  ⟨⟨by norm_num,
    C7_dispatch_respects_positive_horizon.1 3 {0, 1, 2, 3, 4} 5 2 (by norm_num) (by decide)⟩,
   ⟨le_refl 0,
    C7_dispatch_respects_positive_horizon.2 0 {0} 0 (le_refl 0) (by decide)⟩⟩

/-- A raise at one link of the sequential extraction chain abandons every
later link: the writes are exactly those of the prefix before the missing
key. -/
theorem extractChain_missing (ob : J) (pre post : List (String × String))
    (d k : String) (hk : ob.get? k = none) :
    extractChain ob (pre ++ (d, k) :: post) = ((extractChain ob pre).1, true) := by
  induction pre with
  | nil => simp [extractChain, hk]
  | cons p t ih =>
    obtain ⟨d1, k1⟩ := p
    simp only [List.cons_append, extractChain]
    cases h : ob.get? k1 with
    | none => rfl
    | some v => simp [ih]

/-- **C1, counterexample.** On a payload with the `response`/`ob` envelope
and every imperial key except `dewpointF`, the `heatindexF` key is present
yet its driver GV3 is never written (nor is any field after dewpoint in
program order), because the `KeyError` at `ob['dewpointF']` lands in the
single `try:` handler wrapping the whole block — contradicting "extraction
of every other logical field still proceeds and updates its driver" and
"reports exactly one failed field". -/
theorem C1_counterexample :
    (obNoDew.get? "dewpointF").isNone = true ∧
    (obNoDew.get? "heatindexF").isSome = true ∧
    writesDriver effNoDew "CLITEMP" = true ∧
    writesDriver effNoDew "GV3" = false ∧
    writesDriver effNoDew "SOLRAD" = false ∧
    writesDriver effNoDew "GV14" = false := by
  exact ⟨rfl, rfl, rfl, rfl, rfl, rfl⟩

/-- **C1, amended.** Field extraction in `query_conditions` is sequential
inside one `try:` block, not independent: for every payload and every
position of the field list, a missing provider key produces exactly the
writes of the fields before it and abandons the field at that key and
every later one (the sibling precipitation-summary query still runs).
Concretely, the payload missing `dewpointF` updates only CLITEMP, CLIHUM,
BARPRES, SPEED, GV5, WINDDIR and DISTANC of the fourteen tag-driven
drivers, skipping dewpoint and everything after it, while the summary
query still delivers GV6. -/
theorem C1_missing_key_aborts_chain :
    (∀ (ob : J) (pre post : List (String × String)) (d k : String),
        ob.get? k = none →
        extractChain ob (pre ++ (d, k) :: post) = ((extractChain ob pre).1, true)) ∧
    effNoDew =
      [.fetch "observations", .setDriver "CLITEMP" 70, .setDriver "CLIHUM" 40,
       .setDriver "BARPRES" 30, .setDriver "SPEED" 5, .setDriver "GV5" 10,
       .setDriver "WINDDIR" 180, .setDriver "DISTANC" 10,
       .fetch "observations/summary", .setDriver "GV6" 2] := by
  exact ⟨extractChain_missing, rfl⟩

/-- **C1, witness.** The chain abort applied to the concrete
no-`dewpointF` payload at the exact split the source's field order
produces: the seven imperial keys before dewpoint as prefix, the six
fields after it as suffix. -/
theorem C1_witness :
    (obNoDew.get? "dewpointF").isNone = true ∧
    extractChain obNoDew
        ([("CLITEMP", "tempF"), ("CLIHUM", "humidity"), ("BARPRES", "pressureIN"),
          ("SPEED", "windSpeedMPH"), ("GV5", "windGustMPH"), ("WINDDIR", "windDirDEG"),
          ("DISTANC", "visibilityMI")] ++
          ("DEWPT", "dewpointF") ::
            [("GV3", "heatindexF"), ("GV4", "windchillF"), ("GV2", "feelslikeF"),
             ("SOLRAD", "solradWM2"), ("UV", "uvi"), ("GV15", "snowDepthIN")]) =
      ((extractChain obNoDew
        [("CLITEMP", "tempF"), ("CLIHUM", "humidity"), ("BARPRES", "pressureIN"),
         ("SPEED", "windSpeedMPH"), ("GV5", "windGustMPH"), ("WINDDIR", "windDirDEG"),
         ("DISTANC", "visibilityMI")]).1, true) :=
  ⟨rfl,
   C1_missing_key_aborts_chain.1 obNoDew
     [("CLITEMP", "tempF"), ("CLIHUM", "humidity"), ("BARPRES", "pressureIN"),
      ("SPEED", "windSpeedMPH"), ("GV5", "windGustMPH"), ("WINDDIR", "windDirDEG"),
      ("DISTANC", "visibilityMI")]
     [("GV3", "heatindexF"), ("GV4", "windchillF"), ("GV2", "feelslikeF"),
      ("SOLRAD", "solradWM2"), ("UV", "uvi"), ("GV15", "snowDepthIN")]
     "DEWPT" "dewpointF" rfl⟩

/-- **C4, counterexample.** On a payload whose coded-weather string is
`"PT:HVY"` (two segments), the coverage (GV11) and intensity (GV12)
derived writes **are** performed before the `IndexError` at segment `[2]`,
and the cloud-cover field (GV14, key `sky` present) is **not** updated —
contradicting both "none of the three derived driver writes is performed"
and "every other field of the same payload still updates". -/
theorem C4_counterexample :
    (obTwoSeg.get? "weatherCoded").bind J.asStr? = some "PT:HVY" ∧
    (pySplitColon "PT:HVY").length = 2 ∧
    writesDriver effTwoSeg "GV11" = true ∧
    writesDriver effTwoSeg "GV12" = true ∧
    writesDriver effTwoSeg "GV13" = false ∧
    (obTwoSeg.get? "sky").isSome = true ∧
    writesDriver effTwoSeg "GV14" = false := by
  exact ⟨rfl, rfl, rfl, rfl, rfl, rfl, rfl⟩

/-- **C4, amended.** A coded-weather string with `k < 3` colon-separated
segments (`k` is 1 or 2 — a split never yields fewer than one segment)
performs the derived writes for the first `k` segments — coverage (GV11),
then intensity (GV12) when a second segment exists — and the `IndexError`
at the first out-of-range segment index skips the remaining derived
writes and abandons the rest of the primary block (cloud cover GV14 and
the precipitation capture); fields extracted before the coded-weather
block still update, and the sibling summary query still runs.
Concretely: the two-segment payload writes the fourteen chain drivers,
GV11 and GV12, then nothing else of the primary block; the one-segment
payload writes the fourteen chain drivers and GV11 only; in both, the
summary still delivers GV6. -/
theorem C4_short_code_partial_writes :
    (∀ (ob : J) (w : String),
        ob.get? "weatherCoded" = some (J.str w) →
        (pySplitColon w).length < 3 →
        weatherCodedSteps ob =
          (Effect.setDriver "GV11" (coverage_codes ((pySplitColon w).getD 0 "")) ::
            (if 2 ≤ (pySplitColon w).length then
              [Effect.setDriver "GV12" (intensity_codes ((pySplitColon w).getD 1 ""))]
            else []), true)) ∧
    effTwoSeg =
      [.fetch "observations", .setDriver "CLITEMP" 70, .setDriver "CLIHUM" 40,
       .setDriver "BARPRES" 30, .setDriver "SPEED" 5, .setDriver "GV5" 10,
       .setDriver "WINDDIR" 180, .setDriver "DISTANC" 10, .setDriver "DEWPT" 60,
       .setDriver "GV3" 80, .setDriver "GV4" 65, .setDriver "GV2" 71,
       .setDriver "SOLRAD" 500, .setDriver "UV" 3, .setDriver "GV15" 0,
       .setDriver "GV11" 2, .setDriver "GV12" 5,
       .fetch "observations/summary", .setDriver "GV6" 2] ∧
    effOneSeg =
      [.fetch "observations", .setDriver "CLITEMP" 70, .setDriver "CLIHUM" 40,
       .setDriver "BARPRES" 30, .setDriver "SPEED" 5, .setDriver "GV5" 10,
       .setDriver "WINDDIR" 180, .setDriver "DISTANC" 10, .setDriver "DEWPT" 60,
       .setDriver "GV3" 80, .setDriver "GV4" 65, .setDriver "GV2" 71,
       .setDriver "SOLRAD" 500, .setDriver "UV" 3, .setDriver "GV15" 0,
       .setDriver "GV11" 0,
       .fetch "observations/summary", .setDriver "GV6" 2] := by
  refine ⟨?_, rfl, rfl⟩
  intro ob w hget hlen
  by_cases h2 : 2 ≤ (pySplitColon w).length
  · simp only [weatherCodedSteps, hget, update_driver, pyFloat, if_pos h2,
      if_neg (by omega : ¬ 3 ≤ (pySplitColon w).length)]
    simp
  · simp only [weatherCodedSteps, hget, update_driver, pyFloat, if_neg h2]

/-- **C4, witness.** The short-code behaviour exercised at both concrete
segment counts: `"PT:HVY"` (two segments) produces the coverage and
intensity writes and the raised flag, `"RA"` (one segment) produces the
coverage write alone and the raised flag. -/
theorem C4_witness :
    ((pySplitColon "PT:HVY").length < 3 ∧
      weatherCodedSteps obTwoSeg =
        ([.setDriver "GV11" (coverage_codes ((pySplitColon "PT:HVY").getD 0 "")),
          .setDriver "GV12" (intensity_codes ((pySplitColon "PT:HVY").getD 1 ""))], true)) ∧
    ((pySplitColon "RA").length < 3 ∧
      weatherCodedSteps obOneSeg =
        ([.setDriver "GV11" (coverage_codes ((pySplitColon "RA").getD 0 ""))], true)) :=
  ⟨⟨by decide,
    C4_short_code_partial_writes.1 obTwoSeg "PT:HVY" rfl (by decide)⟩,
   ⟨by decide,
    C4_short_code_partial_writes.1 obOneSeg "RA" rfl (by decide)⟩⟩

/-- **C9, counterexample.** When the precipitation-summary fetch yields no
data (`get_weather_data` returns `None`), `query_conditions` exits by
`return` without any fallback: even though the primary observation
provided `precipIN = 5`, the GV6 driver is never written — contradicting
"GV6 is set to the precipitation value already obtained from the primary
observation, if one was obtained". -/
theorem C9_counterexample :
    (obFull.get? "precipIN").bind pyFloat = some 5 ∧
    writesDriver (query_conditions true "imperial" (some (obsPayload obFull)) none).1
      "GV6" = false := by
  exact ⟨rfl, rfl⟩

/-- **C9, amended.** The GV6 fallback to the primary observation's
precipitation fires only when the summary-processing code raises (a
malformed record structure or a failing `precip` sub-lookup); a summary
fetch that returns no data, or a payload whose membership test on
`response` is false, exits by `return` leaving GV6 unwritten even when a
primary value exists; a well-formed record lacking the `precip` key also
writes nothing; and because the `precipitation` local is initialized to 0,
the exception fallback writes GV6 = 0 — not "no write" — when the primary
block failed to capture a value.  Concretely: a malformed summary after a
successful primary poll writes GV6 = 5 (the primary value), and after an
aborted primary poll writes GV6 = 0. -/
theorem C9_gv6_fallback_on_exception_only :
    (∀ (units : String) (precip : J), summaryStep units none precip = []) ∧
    (∀ (units : String) (precip : J) (jdata : J),
        jdata.hasKey "response" = some false →
        summaryStep units (some jdata) precip = []) ∧
    (∀ (units : String) (precip : J) (jdata resp : J),
        jdata.hasKey "response" = some true →
        jdata.get? "response" = some resp →
        summaryRecord resp = none →
        summaryStep units (some jdata) precip = update_driver "GV6" precip) ∧
    (∀ (units : String) (precip : J) (jdata resp rd : J),
        jdata.hasKey "response" = some true →
        jdata.get? "response" = some resp →
        summaryRecord resp = some rd →
        rd.hasKey "precip" = some false →
        summaryStep units (some jdata) precip = []) ∧
    writesDriver (query_conditions true "imperial" (some (obsPayload obFull))
      (some sumBad)).1 "GV6" = true ∧
    (query_conditions true "imperial" (some (obsPayload obFull)) (some sumBad)).1.getLast?
      = some (.setDriver "GV6" 5) ∧
    (query_conditions true "imperial" (some (obsPayload obNoDew)) (some sumBad)).1.getLast?
      = some (.setDriver "GV6" 0) := by
  refine ⟨fun units precip => rfl, ?_, ?_, ?_, rfl, rfl, rfl⟩
  · intro units precip jdata h
    simp [summaryStep, h]
  · intro units precip jdata resp h1 h2 h3
    simp [summaryStep, h1, h2, h3]
  · intro units precip jdata resp rd h1 h2 h3 h4
    simp [summaryStep, h1, h2, h3, h4]

/-- **C9, witness.** The fallback clauses applied at concrete payloads:
a `response`-less summary returns silently, a malformed `response` member
triggers the GV6 fallback write, and a record without `precip` writes
nothing. -/
theorem C9_witness :
    ((J.obj [("x", J.num 1)]).hasKey "response" = some false ∧
      summaryStep "imperial" (some (J.obj [("x", J.num 1)])) (J.num 5) = []) ∧
    (sumBad.hasKey "response" = some true ∧
      sumBad.get? "response" = some (J.num 1) ∧
      summaryRecord (J.num 1) = none ∧
      summaryStep "imperial" (some sumBad) (J.num 5) = update_driver "GV6" (J.num 5)) ∧
    (sumNoPrecip.hasKey "response" = some true ∧
      summaryStep "imperial" (some sumNoPrecip) (J.num 5) = []) :=
  ⟨⟨rfl,
    C9_gv6_fallback_on_exception_only.2.1 "imperial" (J.num 5)
      (J.obj [("x", J.num 1)]) rfl⟩,
   ⟨rfl, rfl, rfl,
    C9_gv6_fallback_on_exception_only.2.2.1 "imperial" (J.num 5) sumBad (J.num 1)
      rfl rfl rfl⟩,
   ⟨rfl,
    C9_gv6_fallback_on_exception_only.2.2.2.1 "imperial" (J.num 5) sumNoPrecip
      (J.obj [("periods",
        J.arr [J.obj [("summary", J.obj [("temp", J.num 1)])]])])
      (J.obj [("temp", J.num 1)]) rfl rfl rfl rfl⟩⟩

/-! ### Folded max/min lemmas -/

theorem le_foldl_max : ∀ (l : List ℚ) (a : ℚ), a ≤ l.foldl max a := by
  intro l
  induction l with
  | nil => intro a; exact le_refl a
  | cons b t ih => intro a; exact le_trans (le_max_left a b) (ih (max a b))

theorem mem_le_foldl_max : ∀ (l : List ℚ) (a x : ℚ), x ∈ l → x ≤ l.foldl max a := by
  intro l
  induction l with
  | nil => intro a x hx; simp at hx
  | cons b t ih =>
    intro a x hx
    rcases List.mem_cons.mp hx with h | h
    · subst h; exact le_trans (le_max_right a x) (le_foldl_max t (max a x))
    · exact ih (max a b) x h

theorem foldl_max_le : ∀ (l : List ℚ) (a c : ℚ), a ≤ c → (∀ x ∈ l, x ≤ c) →
    l.foldl max a ≤ c := by
  intro l
  induction l with
  | nil => intro a c ha _; exact ha
  | cons b t ih =>
    intro a c ha hl
    exact ih (max a b) c (max_le ha (hl b (List.mem_cons_self b t)))
      (fun x hx => hl x (List.mem_cons_of_mem b hx))

theorem head_mem_le_foldl_max (x b : ℚ) (m : List ℚ) (hx : x ∈ b :: m) :
    x ≤ m.foldl max b := by
  rcases List.mem_cons.mp hx with h | h
  · subst h; exact le_foldl_max m x
  · exact mem_le_foldl_max m b x h

theorem foldl_max_perm {a b : ℚ} {l m : List ℚ} (hp : (a :: l).Perm (b :: m)) :
    l.foldl max a = m.foldl max b := by
  apply le_antisymm
  · exact foldl_max_le l a _
      (head_mem_le_foldl_max a b m (hp.mem_iff.mp (List.mem_cons_self a l)))
      (fun x hx => head_mem_le_foldl_max x b m (hp.mem_iff.mp (List.mem_cons_of_mem a hx)))
  · exact foldl_max_le m b _
      (head_mem_le_foldl_max b a l (hp.symm.mem_iff.mp (List.mem_cons_self b m)))
      (fun x hx => head_mem_le_foldl_max x a l (hp.symm.mem_iff.mp (List.mem_cons_of_mem b hx)))

theorem foldl_min_le : ∀ (l : List ℚ) (a : ℚ), l.foldl min a ≤ a := by
  intro l
  induction l with
  | nil => intro a; exact le_refl a
  | cons b t ih => intro a; exact le_trans (ih (min a b)) (min_le_left a b)

theorem foldl_min_le_mem : ∀ (l : List ℚ) (a x : ℚ), x ∈ l → l.foldl min a ≤ x := by
  intro l
  induction l with
  | nil => intro a x hx; simp at hx
  | cons b t ih =>
    intro a x hx
    rcases List.mem_cons.mp hx with h | h
    · subst h; exact le_trans (foldl_min_le t (min a x)) (min_le_right a x)
    · exact ih (min a b) x h

theorem le_foldl_min : ∀ (l : List ℚ) (a c : ℚ), c ≤ a → (∀ x ∈ l, c ≤ x) →
    c ≤ l.foldl min a := by
  intro l
  induction l with
  | nil => intro a c ha _; exact ha
  | cons b t ih =>
    intro a c ha hl
    exact ih (min a b) c (le_min ha (hl b (List.mem_cons_self b t)))
      (fun x hx => hl x (List.mem_cons_of_mem b hx))

theorem foldl_min_le_head_mem (x b : ℚ) (m : List ℚ) (hx : x ∈ b :: m) :
    m.foldl min b ≤ x := by
  rcases List.mem_cons.mp hx with h | h
  · subst h; exact foldl_min_le m x
  · exact foldl_min_le_mem m b x h

theorem foldl_min_perm {a b : ℚ} {l m : List ℚ} (hp : (a :: l).Perm (b :: m)) :
    l.foldl min a = m.foldl min b := by
  apply le_antisymm
  · exact le_foldl_min m b _
      (foldl_min_le_head_mem b a l (hp.symm.mem_iff.mp (List.mem_cons_self b m)))
      (fun x hx => foldl_min_le_head_mem x a l (hp.symm.mem_iff.mp (List.mem_cons_of_mem b hx)))
  · exact le_foldl_min l a _
      (foldl_min_le_head_mem a b m (hp.mem_iff.mp (List.mem_cons_self a l)))
      (fun x hx => foldl_min_le_head_mem x b m (hp.mem_iff.mp (List.mem_cons_of_mem a hx)))

theorem ite_gt_eq_max (a b : ℚ) : (if b > a then b else a) = max a b := by
  rcases le_or_lt b a with h | h
  · rw [if_neg (not_lt.mpr h), max_eq_left h]
  · rw [if_pos h, max_eq_right h.le]

theorem ite_lt_eq_min (a b : ℚ) : (if b < a then b else a) = min a b := by
  rcases le_or_lt a b with h | h
  · rw [if_neg (not_lt.mpr h), min_eq_left h]
  · rw [if_pos h, min_eq_right h.le]

/-! ### The accumulation phase of the legacy aggregation loop -/

/-- Folding non-marker buckets from a started state accumulates running
max/min for the extrema, running sums for the averaged fields, and the
bucket count, touching nothing else. -/
theorem foldl_accum (uv : List ℚ) (bs : List Bucket) :
    ∀ (s : QFState), s.start = true →
      (∀ b ∈ bs, b.time ≠ "00:00:00" ∧ b.time ≠ "21:00:00") →
      bs.foldl (stepBucket uv) s =
        { fcast :=
            { temp_max := (bs.map Bucket.temp_max).foldl max s.fcast.temp_max,
              temp_min := (bs.map Bucket.temp_min).foldl min s.fcast.temp_min,
              hmax := (bs.map Bucket.humidity).foldl max s.fcast.hmax,
              hmin := (bs.map Bucket.humidity).foldl min s.fcast.hmin,
              pressure := s.fcast.pressure + (bs.map Bucket.pressure).sum,
              weather := s.fcast.weather,
              speed := s.fcast.speed + (bs.map Bucket.speed).sum,
              clouds := s.fcast.clouds + (bs.map Bucket.clouds).sum,
              uv := s.fcast.uv,
              dtStamp := s.fcast.dtStamp },
          day := s.day, start := s.start, count := s.count + bs.length,
          dispatches := s.dispatches } := by
  induction bs with
  | nil => intro s hs hall; simp
  | cons b t ih =>
    intro s hs hall
    have hb := hall b (List.mem_cons_self b t)
    have hstep : stepBucket uv s b =
        { s with fcast := accumFcast s.fcast b, count := s.count + 1 } := by
      simp [stepBucket, hb.1, hb.2, hs]
    rw [List.foldl_cons, hstep,
      ih _ (by simp [hs]) (fun x hx => hall x (List.mem_cons_of_mem b hx))]
    simp only [accumFcast, ite_gt_eq_max, ite_lt_eq_min, List.map_cons,
      List.foldl_cons, List.sum_cons, List.length_cons, QFState.mk.injEq,
      Fcast.mk.injEq, hs]
    and_intros <;> first | rfl | ring | omega

/-- A day seeded at `'00:00:00'` whose buckets run out with no closing
marker is closed by the partial-day path. -/
theorem partialDayRun (uv : List ℚ) (f0 : Fcast) (b0 : Bucket) (bs : List Bucket)
    (h0 : b0.time = "00:00:00")
    (hbs : ∀ b ∈ bs, b.time ≠ "00:00:00" ∧ b.time ≠ "21:00:00") :
    (runQueryForecast uv f0 (b0 :: bs)).dispatches =
      [(1, partialDaySummary uv b0 bs)] := by
  unfold runQueryForecast
  have hstep : stepBucket uv (initQF f0) b0 =
      { fcast := seedFcast uv 1 b0, day := 1, start := true, count := 1,
        dispatches := [] } := by
    simp [stepBucket, h0, initQF]
  rw [List.foldl_cons, hstep, foldl_accum uv bs _ rfl hbs]
  simp [closePartial, partialDaySummary, seedFcast, Nat.add_comm]

/-- A day seeded at `'00:00:00'` and closed by a `'21:00:00'` bucket is
dispatched with the averaged fields divided by the fixed constant 8 (the
closing bucket itself having been accumulated first). -/
theorem dayRun_marker (uv : List ℚ) (f0 : Fcast) (b0 bend : Bucket) (bs : List Bucket)
    (h0 : b0.time = "00:00:00") (hend : bend.time = "21:00:00")
    (hbs : ∀ b ∈ bs, b.time ≠ "00:00:00" ∧ b.time ≠ "21:00:00") :
    (runQueryForecast uv f0 (b0 :: (bs ++ [bend]))).dispatches =
      [(1, markerDaySummary uv b0 bs bend)] := by
  unfold runQueryForecast
  have hstep : stepBucket uv (initQF f0) b0 =
      { fcast := seedFcast uv 1 b0, day := 1, start := true, count := 1,
        dispatches := [] } := by
    simp [stepBucket, h0, initQF]
  have hstep2 : ∀ s : QFState, s.start = true →
      stepBucket uv s bend = closeDay8
        { s with fcast := accumFcast s.fcast bend, count := s.count + 1 } := by
    intro s hs
    have hne : bend.time ≠ "00:00:00" := by rw [hend]; decide
    simp [stepBucket, hne, hs, hend]
  have hsplit : b0 :: (bs ++ [bend]) = (b0 :: bs) ++ [bend] := by simp
  rw [hsplit, List.foldl_append]
  simp only [List.foldl_cons, List.foldl_nil]
  rw [hstep, foldl_accum uv bs _ rfl hbs, hstep2 _ rfl]
  simp only [closeDay8, closePartial, accumFcast, seedFcast, ite_gt_eq_max,
    ite_lt_eq_min, markerDaySummary, List.map_append, List.map_cons, List.map_nil,
    List.foldl_append, List.foldl_cons, List.foldl_nil, List.sum_append,
    List.sum_cons, List.sum_nil]
  norm_num [Fcast.mk.injEq]
  and_intros <;> first | rfl | ring

/-- **C2, counterexample.** A day of three buckets with pressures
`[1000, 1010, 1020]` closed by the `'21:00:00'` day-end marker is
dispatched with average pressure `3030 / 8 = 378.75`, not the
`3030 / 3 = 1010` the claim requires — at a marker close the source
divides by the fixed constant 8, not by the number of buckets actually
accumulated. -/
theorem C2_counterexample :
    ((runQueryForecast [] fZero
        [bP "00:00:00" 1000, bP "03:00:00" 1010, bP "21:00:00" 1020]).dispatches.map
      (fun p => (p.1, p.2.pressure))) = [(1, 3030 / 8)] ∧
    (3030 / 8 : ℚ) ≠ (1000 + 1010 + 1020) / 3 := by
  constructor
  · rw [show [bP "00:00:00" 1000, bP "03:00:00" 1010, bP "21:00:00" 1020] =
        bP "00:00:00" 1000 :: ([bP "03:00:00" 1010] ++ [bP "21:00:00" 1020]) from rfl,
      dayRun_marker [] fZero (bP "00:00:00" 1000) (bP "21:00:00" 1020)
        [bP "03:00:00" 1010] rfl rfl (by decide)]
    simp only [markerDaySummary, bP, List.map_append, List.map_cons, List.map_nil,
      List.sum_append, List.sum_cons, List.sum_nil, List.map]
    norm_num
  · norm_num

/-- **C2, amended.** In sub-day aggregation the averaged fields (pressure,
wind speed, cloud cover) are a running sum divided, **at a day-end-marker
close, by the fixed constant 8** (the number of three-hourly buckets of a
complete day) whatever the accumulated count, and **only at a partial-day
close** (input ends mid-day) by the count of buckets actually accumulated.
A partial day of three buckets with pressures `[1000, 1010, 1020]` yields
average pressure exactly 1010. -/
theorem C2_average_divisor_fixed8_at_marker :
    (∀ (uv : List ℚ) (f0 : Fcast) (b0 bend : Bucket) (bs : List Bucket),
        b0.time = "00:00:00" → bend.time = "21:00:00" →
        (∀ b ∈ bs, b.time ≠ "00:00:00" ∧ b.time ≠ "21:00:00") →
        ((runQueryForecast uv f0 (b0 :: (bs ++ [bend]))).dispatches.map
            (fun p => (p.1, p.2.pressure, p.2.speed, p.2.clouds))) =
          [(1, (b0.pressure + ((bs ++ [bend]).map Bucket.pressure).sum) / 8,
               (b0.speed + ((bs ++ [bend]).map Bucket.speed).sum) / 8,
               (b0.clouds + ((bs ++ [bend]).map Bucket.clouds).sum) / 8)]) ∧
    (∀ (uv : List ℚ) (f0 : Fcast) (b0 : Bucket) (bs : List Bucket),
        b0.time = "00:00:00" →
        (∀ b ∈ bs, b.time ≠ "00:00:00" ∧ b.time ≠ "21:00:00") →
        ((runQueryForecast uv f0 (b0 :: bs)).dispatches.map
            (fun p => (p.1, p.2.pressure, p.2.speed, p.2.clouds))) =
          [(1, (b0.pressure + (bs.map Bucket.pressure).sum) / ((1 + bs.length : ℕ) : ℚ),
               (b0.speed + (bs.map Bucket.speed).sum) / ((1 + bs.length : ℕ) : ℚ),
               (b0.clouds + (bs.map Bucket.clouds).sum) / ((1 + bs.length : ℕ) : ℚ))]) ∧
    ((runQueryForecast [] fZero
        [bP "00:00:00" 1000, bP "03:00:00" 1010, bP "06:00:00" 1020]).dispatches.map
      (fun p => (p.1, p.2.pressure))) = [(1, 1010)] := by
  refine ⟨?_, ?_, ?_⟩
  · intro uv f0 b0 bend bs h0 hend hbs
    rw [dayRun_marker uv f0 b0 bend bs h0 hend hbs]
    simp [markerDaySummary]
  · intro uv f0 b0 bs h0 hbs
    rw [partialDayRun uv f0 b0 bs h0 hbs]
    simp [partialDaySummary]
  · rw [show [bP "00:00:00" 1000, bP "03:00:00" 1010, bP "06:00:00" 1020] =
        bP "00:00:00" 1000 :: [bP "03:00:00" 1010, bP "06:00:00" 1020] from rfl,
      partialDayRun [] fZero (bP "00:00:00" 1000)
        [bP "03:00:00" 1010, bP "06:00:00" 1020] rfl (by decide)]
    simp only [partialDaySummary, bP, List.map_cons, List.map_nil,
      List.sum_cons, List.sum_nil, List.length_cons, List.length_nil, List.map]
    norm_num

/-- **C2, witness.** The fixed-divisor marker close applied at the
concrete three-bucket day with pressures `[1000, 1010, 1020]`. -/
theorem C2_witness :
    (bP "00:00:00" 1000).time = "00:00:00" ∧
    ((runQueryForecast [] fZero
        (bP "00:00:00" 1000 :: ([bP "03:00:00" 1010] ++ [bP "21:00:00" 1020]))).dispatches.map
        (fun p => (p.1, p.2.pressure, p.2.speed, p.2.clouds))) =
      [(1, ((bP "00:00:00" 1000).pressure +
              (([bP "03:00:00" 1010] ++ [bP "21:00:00" 1020]).map Bucket.pressure).sum) / 8,
           ((bP "00:00:00" 1000).speed +
              (([bP "03:00:00" 1010] ++ [bP "21:00:00" 1020]).map Bucket.speed).sum) / 8,
           ((bP "00:00:00" 1000).clouds +
              (([bP "03:00:00" 1010] ++ [bP "21:00:00" 1020]).map Bucket.clouds).sum) / 8)] :=
  ⟨rfl,
   C2_average_divisor_fixed8_at_marker.1 [] fZero
     (bP "00:00:00" 1000) (bP "21:00:00" 1020) [bP "03:00:00" 1010]
     rfl rfl (by decide)⟩

/-- **C8.** In sub-day aggregation the temperature and humidity extrema
are seeded from the first (`'00:00:00'`) bucket — not from ±infinity — and
updated with strict comparisons: a single-bucket day dispatches
`temp_max`/`temp_min` equal to that bucket's own max/min temperature
fields and both humidity extrema equal to its humidity; the resulting
extrema depend only on the multiset of bucket values, not on arrival
order; and the concrete day with temperatures `[10, 25, 5]` yields
`temp_max = 25`, `temp_min = 5`. -/
theorem C8_extrema_seeded_and_order_independent :
    (∀ (uv : List ℚ) (f0 : Fcast) (b : Bucket), b.time = "00:00:00" →
        ((runQueryForecast uv f0 [b]).dispatches.map
            (fun p => (p.2.temp_max, p.2.temp_min, p.2.hmax, p.2.hmin))) =
          [(b.temp_max, b.temp_min, b.humidity, b.humidity)]) ∧
    (∀ (uv uv2 : List ℚ) (f0 f02 : Fcast) (b0 c0 : Bucket) (bs cs : List Bucket),
        b0.time = "00:00:00" → c0.time = "00:00:00" →
        (∀ b ∈ bs, b.time ≠ "00:00:00" ∧ b.time ≠ "21:00:00") →
        (∀ c ∈ cs, c.time ≠ "00:00:00" ∧ c.time ≠ "21:00:00") →
        ((b0 :: bs).map Bucket.temp_max).Perm ((c0 :: cs).map Bucket.temp_max) →
        ((b0 :: bs).map Bucket.temp_min).Perm ((c0 :: cs).map Bucket.temp_min) →
        ((b0 :: bs).map Bucket.humidity).Perm ((c0 :: cs).map Bucket.humidity) →
        ((runQueryForecast uv f0 (b0 :: bs)).dispatches.map
            (fun p => (p.2.temp_max, p.2.temp_min, p.2.hmax, p.2.hmin))) =
          ((runQueryForecast uv2 f02 (c0 :: cs)).dispatches.map
            (fun p => (p.2.temp_max, p.2.temp_min, p.2.hmax, p.2.hmin)))) ∧
    ((runQueryForecast [] fZero
        [bT "00:00:00" 10 40, bT "03:00:00" 25 60, bT "06:00:00" 5 50]).dispatches.map
      (fun p => (p.2.temp_max, p.2.temp_min))) = [(25, 5)] := by
  refine ⟨?_, ?_, ?_⟩
  · intro uv f0 b h0
    rw [partialDayRun uv f0 b [] h0 (by simp)]
    simp [partialDaySummary]
  · intro uv uv2 f0 f02 b0 c0 bs cs h0 hc0 hbs hcs hpmax hpmin hphum
    rw [partialDayRun uv f0 b0 bs h0 hbs, partialDayRun uv2 f02 c0 cs hc0 hcs]
    simp only [List.map_cons] at hpmax hpmin hphum
    simp only [List.map_cons, List.map_nil, partialDaySummary, List.cons.injEq,
      Prod.mk.injEq, and_true]
    exact ⟨foldl_max_perm hpmax, foldl_min_perm hpmin,
      foldl_max_perm hphum, foldl_min_perm hphum⟩
  · have h1 : max (10 : ℚ) 25 = 25 := max_eq_right (by norm_num)
    have h2 : max (25 : ℚ) 5 = 25 := max_eq_left (by norm_num)
    have h3 : min (10 : ℚ) 25 = 10 := min_eq_left (by norm_num)
    have h4 : min (10 : ℚ) 5 = 5 := min_eq_right (by norm_num)
    rw [show [bT "00:00:00" 10 40, bT "03:00:00" 25 60, bT "06:00:00" 5 50] =
        bT "00:00:00" 10 40 :: [bT "03:00:00" 25 60, bT "06:00:00" 5 50] from rfl,
      partialDayRun [] fZero (bT "00:00:00" 10 40)
        [bT "03:00:00" 25 60, bT "06:00:00" 5 50] rfl (by decide)]
    simp only [partialDaySummary, bT, List.map_cons, List.map_nil,
      List.foldl_cons, List.foldl_nil, List.map]
    rw [h1, h2, h3, h4]

/-- **C8, witness.** The single-bucket seeding applied at a concrete
bucket: the dispatched summary reproduces the bucket's temperature and
humidity values. -/
theorem C8_witness :
    (bT "00:00:00" 10 40).time = "00:00:00" ∧
    ((runQueryForecast [] fZero [bT "00:00:00" 10 40]).dispatches.map
        (fun p => (p.2.temp_max, p.2.temp_min, p.2.hmax, p.2.hmin))) =
      [((bT "00:00:00" 10 40).temp_max, (bT "00:00:00" 10 40).temp_min,
        (bT "00:00:00" 10 40).humidity, (bT "00:00:00" 10 40).humidity)] :=
  ⟨rfl, C8_extrema_seeded_and_order_independent.1 [] fZero (bT "00:00:00" 10 40) rfl⟩

end AerisPoly
